import Mathlib

/-!
Shallow embedding of the blogicum blog application
(src/blogicum/blog/views.py) and the parts of its data model the views
depend on.  Pure functions below translate the request-handling code of
the class-based views; the database is an explicit value threaded through
mutating requests.
-/

namespace Blogicum

/-- Modelled from the spec: the User entity of the missing models.py.
Only the primary key and the unique username are used by the views. -/
structure User where
  pk : Nat
  username : String
deriving DecidableEq

/-- Modelled from the spec: the Category entity of the missing models.py,
with its is_published flag and unique slug. -/
structure Category where
  is_published : Bool
  slug : String
deriving DecidableEq

/-- Modelled from the spec: the Post entity of the missing models.py.
The category foreign key is optional per the spec (category "(optional)",
visibility rule "or absent"), so it is an Option here.  The fields are the
ones views.py reads: author, pub_date, is_published, category. -/
structure Post where
  id : Nat
  author : User
  pub_date : Int
  is_published : Bool
  category : Option Category
  text : String
deriving DecidableEq

/-- Modelled from the spec: the Comment entity of the missing models.py,
with foreign keys to its author and its parent Post (stored by id). -/
structure Comment where
  id : Nat
  author : User
  post : Nat
  text : String
deriving DecidableEq

/-- The relational store seen by one request: the Post and Comment tables,
plus the id the next inserted Comment row receives. -/
structure DB where
  posts : List Post
  comments : List Comment
  nextCommentId : Nat
deriving DecidableEq

/-- The outcomes a request can have in this embedding.  `forbidden` (HTTP
403 / authorization denied) is present so that its absence from every
reachable outcome can be stated; no view below ever produces it.
`serverError` is an uncaught Python exception (Django turns it into a 500
response). -/
inductive Response where
  | ok
  | notFound
  | forbidden
  | redirectLogin
  | redirectPostDetail (post_id : Nat)
  | redirectProfile (username : String)
  | serverError
deriving DecidableEq

/-- Row lookup by primary key, as get_object / get_object_or_404 perform it. -/
def DB.findPost (db : DB) (postId : Nat) : Option Post :=
  db.posts.find? (fun p => p.id == postId)

/-- Row lookup of a Comment by primary key (pk_url_kwarg comment_id). -/
def DB.findComment (db : DB) (commentId : Nat) : Option Comment :=
  db.comments.find? (fun c => c.id == commentId)

/-- The pk of request.user: Django's AnonymousUser has pk None, an
authenticated user its integer pk. -/
def userPk : Option User → Option Nat
  | none => none
  | some u => some u.pk

/-- The username of request.user: Django's AnonymousUser has the empty
string as username. -/
def requesterUsername : Option User → String
  | none => ""
  | some u => u.username

/-- PostDetailView.dispatch (views.py lines 32-42).  The Python condition
`not is_published or pub_date > now or not category.is_published`
short-circuits left to right; when the first two disjuncts are false and
the post has no category, `None.is_published` raises AttributeError, which
is a server error, before the author check is reached.  When the condition
holds, a viewer whose pk differs from the author's pk gets Http404;
otherwise rendering proceeds. -/
def postDetailDispatch (now : Int) (user : Option User) (db : DB) (postId : Nat) : Response :=
  match db.findPost postId with
  | none => .notFound
  | some p =>
    if !p.is_published || decide (p.pub_date > now) then
      if userPk user ≠ some p.author.pk then .notFound else .ok
    else
      match p.category with
      | none => .serverError
      | some c =>
        if !c.is_published then
          if userPk user ≠ some p.author.pk then .notFound else .ok
        else .ok

/-- PostUpdateView handling one edit request with valid form data.  Its
method resolution order is IsAuthorMixin, PostEditMixin (which carries
LoginRequiredMixin), UpdateView: IsAuthorMixin.dispatch runs first, so the
author-pk comparison happens before the authentication check.  get_object
inside IsAuthorMixin raises Http404 when the post does not exist.  On the
author path the post row is updated and the response redirects to the post
detail view (get_success_url). -/
def postUpdateRequest (db : DB) (user : Option User) (postId : Nat)
    (newText : String) : Response × DB :=
  match db.findPost postId with
  | none => (.notFound, db)
  | some p =>
    if userPk user ≠ some p.author.pk then
      (.redirectPostDetail p.id, db)
    else
      match user with
      | none => (.redirectLogin, db)
      | some _ =>
        (.redirectPostDetail p.id,
         { db with posts :=
            db.posts.map (fun q => if q.id == p.id then { q with text := newText } else q) })

/-- PostDeleteView handling one delete request: same mixin order as
PostUpdateView, so the author check precedes the login check.  On the
author path the post row is deleted (its comments cascade per the spec)
and the response redirects to the author's profile (get_success_url). -/
def postDeleteRequest (db : DB) (user : Option User) (postId : Nat) : Response × DB :=
  match db.findPost postId with
  | none => (.notFound, db)
  | some p =>
    if userPk user ≠ some p.author.pk then
      (.redirectPostDetail p.id, db)
    else
      match user with
      | none => (.redirectLogin, db)
      | some u =>
        (.redirectProfile u.username,
         { db with
            posts := db.posts.filter (fun q => !(q.id == p.id)),
            comments := db.comments.filter (fun c => !(c.post == p.id)) })

/-- CommentUpdateView handling one edit request with valid form data.  Its
method resolution order is LoginRequiredMixin, IsAuthorMixin,
CommentMixin, UpdateView: the login check runs first; IsAuthorMixin then
fetches the Comment (pk_url_kwarg comment_id) and on author mismatch
redirects to the post_detail route built from get_object().pk, which for a
comment view is the COMMENT's own pk, not the parent post's; CommentMixin
then 404s when the url's post_id matches no Post; finally the comment row
is updated and get_success_url redirects to the parent post's detail. -/
def commentUpdateRequest (db : DB) (user : Option User) (postId commentId : Nat)
    (newText : String) : Response × DB :=
  match user with
  | none => (.redirectLogin, db)
  | some u =>
    match db.findComment commentId with
    | none => (.notFound, db)
    | some c =>
      if c.author.pk ≠ u.pk then
        (.redirectPostDetail c.id, db)
      else
        match db.findPost postId with
        | none => (.notFound, db)
        | some _ =>
          (.redirectPostDetail c.post,
           { db with comments :=
              db.comments.map (fun d => if d.id == c.id then { d with text := newText } else d) })

/-- CommentDeleteView handling one delete request, with the same mixin
order and author-mismatch redirect as CommentUpdateView; on the author
path the comment row is removed and the response redirects to the parent
post's detail view. -/
def commentDeleteRequest (db : DB) (user : Option User)
    (postId commentId : Nat) : Response × DB :=
  match user with
  | none => (.redirectLogin, db)
  | some u =>
    match db.findComment commentId with
    | none => (.notFound, db)
    | some c =>
      if c.author.pk ≠ u.pk then
        (.redirectPostDetail c.id, db)
      else
        match db.findPost postId with
        | none => (.notFound, db)
        | some _ =>
          (.redirectPostDetail c.post,
           { db with comments := db.comments.filter (fun d => !(d.id == c.id)) })

/-- Modelled from the spec: validity of a submitted comment body against
CommentForm of the missing forms.py ("valid body text"); a required text
field is valid exactly when it is nonempty. -/
def validBody (s : String) : Bool :=
  !(s == "")

/-- CommentCreateView handling one submission (views.py lines 188-205).
LoginRequiredMixin runs first; dispatch then does
get_object_or_404(Post, pk=post_id) with NO visibility filtering; on a
valid form, form_valid stamps author and post and the new row is inserted,
and get_success_url redirects to the parent post's detail view; on an
invalid form the same form page is re-rendered with nothing persisted. -/
def commentCreateRequest (db : DB) (user : Option User) (postId : Nat)
    (text : String) : Response × DB :=
  match user with
  | none => (.redirectLogin, db)
  | some u =>
    match db.findPost postId with
    | none => (.notFound, db)
    | some p =>
      if validBody text then
        (.redirectPostDetail p.id,
         { db with
            comments := db.comments ++ [⟨db.nextCommentId, u, postId, text⟩],
            nextCommentId := db.nextCommentId + 1 })
      else (.ok, db)

/-- Number of comments whose foreign key points at the post: the
Count(comments) annotation of PostListMixin.get_queryset. -/
def DB.commentCount (db : DB) (postId : Nat) : Nat :=
  (db.comments.filter (fun c => c.post == postId)).length

/-- The ordering relation of order_by on minus pub_date: a precedes b when
b's pub_date is at most a's (most recent first). -/
def pubDateGE (a b : Post) : Prop :=
  b.pub_date ≤ a.pub_date

instance : DecidableRel pubDateGE :=
  fun a b => inferInstanceAs (Decidable (b.pub_date ≤ a.pub_date))

instance : IsTotal Post pubDateGE :=
  ⟨fun a b => le_total b.pub_date a.pub_date⟩

instance : IsTrans Post pubDateGE :=
  ⟨fun _ _ _ hab hbc => le_trans hbc hab⟩

/-- PostListMixin.get_queryset (views.py lines 94-106): every post,
ordered by pub_date descending.  A stable sort stands in for the ORM's
order_by; the comment_count annotation is recovered by DB.commentCount. -/
def postListMixinQueryset (db : DB) : List Post :=
  List.insertionSort pubDateGE db.posts

/-- The related-field filter category__is_published=True: a post whose
category foreign key is NULL has no joined Category row and is excluded. -/
def categoryPublishedJoin (p : Post) : Bool :=
  match p.category with
  | some c => c.is_published
  | none => false

/-- The filter PostListView.get_queryset applies on top of the mixin
queryset: pub_date__lt=now (strict), is_published=True,
category__is_published=True. -/
def publicFilter (now : Int) (p : Post) : Bool :=
  decide (p.pub_date < now) && p.is_published && categoryPublishedJoin p

/-- PostListView.get_queryset (views.py lines 109-118): the home feed
queryset. -/
def postListViewQueryset (db : DB) (now : Int) : List Post :=
  (postListMixinQueryset db).filter (publicFilter now)

/-- Whether the post's category has the given slug (category__slug filter;
a NULL category matches no slug). -/
def categorySlugIs (p : Post) (slug : String) : Bool :=
  match p.category with
  | some c => c.slug == slug
  | none => false

/-- CategoryListlView.get_queryset: the home-feed queryset further
filtered to one category slug (after dispatch has 404-checked that a
published category with that slug exists). -/
def categoryListQueryset (db : DB) (now : Int) (slug : String) : List Post :=
  (postListViewQueryset db now).filter (fun p => categorySlugIs p slug)

/-- ProfileListView.get_queryset (views.py lines 152-164): the mixin
queryset filtered to the profile owner's username.  In the source the
non-owner branch calls queryset.filter(pub_date__lt=now,
is_published=True, category__is_published=True) but DISCARDS the returned
queryset, so the branch has no effect; the dead call is kept here as an
unused let binding. -/
def profileListQueryset (db : DB) (now : Int) (requester : Option User)
    (username : String) : List Post :=
  let queryset := (postListMixinQueryset db).filter (fun p => p.author.username == username)
  if requesterUsername requester ≠ username then
    let _ := queryset.filter (publicFilter now)
    queryset
  else
    queryset

/-- One page of a paginated listing, pages numbered from 1 with pageSize
rows per page, as Django's Paginator slices the queryset. -/
def paginate (l : List Post) (pageSize page : Nat) : List Post :=
  (l.drop ((page - 1) * pageSize)).take pageSize

/-- One rendered page of the home feed (paginate_by = 10), each post
paired with its comment_count annotation. -/
def homeFeedPage (db : DB) (now : Int) (page : Nat) : List (Post × Nat) :=
  (paginate (postListViewQueryset db now) 10 page).map (fun p => (p, db.commentCount p.id))

/-! Concrete fixtures used by counterexamples and witnesses. -/

/-- Fixture user with pk 1. -/
def alice : User := ⟨1, "alice"⟩

/-- Fixture user with pk 2. -/
def bob : User := ⟨2, "bob"⟩

/-- Fixture published category. -/
def newsCat : Category := ⟨true, "news"⟩

/-- Fixture unpublished category. -/
def hiddenCat : Category := ⟨false, "secret"⟩

/-- Fixture: published, past-dated post with no category, by bob. -/
def pC1 : Post := ⟨1, bob, 0, true, none, "a"⟩

/-- Fixture store holding only pC1. -/
def dbC1 : DB := ⟨[pC1], [], 1⟩

/-- Fixture: unpublished post with a published category, by alice. -/
def pC1w : Post := ⟨14, alice, 0, false, some newsCat, "w"⟩

/-- Fixture store holding only pC1w. -/
def dbC1w : DB := ⟨[pC1w], [], 1⟩

/-- Fixture: draft post (is_published false) by alice. -/
def draftC2 : Post := ⟨2, alice, 0, false, some newsCat, "d"⟩

/-- Fixture store holding only draftC2. -/
def dbC2 : DB := ⟨[draftC2], [], 1⟩

/-- Fixture: published post by alice. -/
def pC3 : Post := ⟨3, alice, 0, true, some newsCat, "p"⟩

/-- Fixture: comment by alice on pC3. -/
def cC3 : Comment := ⟨30, alice, 3, "c"⟩

/-- Fixture store holding pC3 and cC3. -/
def dbC3 : DB := ⟨[pC3], [cC3], 31⟩

/-- Fixture: post with pk 5 by alice. -/
def pC4 : Post := ⟨5, alice, 0, true, some newsCat, "p"⟩

/-- Fixture: comment with pk 7 by alice whose parent post has pk 5. -/
def cC4 : Comment := ⟨7, alice, 5, "c"⟩

/-- Fixture store holding pC4 and cC4. -/
def dbC4 : DB := ⟨[pC4], [cC4], 8⟩

/-- Fixture: post with pk 6 by alice. -/
def pC5 : Post := ⟨6, alice, 0, true, some newsCat, "p"⟩

/-- Fixture: comment with pk 9 by alice on pC5. -/
def cC5 : Comment := ⟨9, alice, 6, "c"⟩

/-- Fixture store holding pC5 and cC5. -/
def dbC5 : DB := ⟨[pC5], [cC5], 10⟩

/-- Fixture: published, past-dated post with no category, by alice. -/
def pC6 : Post := ⟨4, alice, 0, true, none, "a"⟩

/-- Fixture store holding only pC6. -/
def dbC6 : DB := ⟨[pC6], [], 1⟩

/-- Fixture: published post with published category whose pub_date is
exactly 100. -/
def pC7 : Post := ⟨11, alice, 100, true, some newsCat, "b"⟩

/-- Fixture store holding only pC7. -/
def dbC7 : DB := ⟨[pC7], [], 1⟩

/-- Fixture: published post with pk 12 by alice. -/
def pC9 : Post := ⟨12, alice, 0, true, some newsCat, "p"⟩

/-- Fixture store holding only pC9. -/
def dbC9 : DB := ⟨[pC9], [], 1⟩

/-- Fixture: unpublished, future-dated post with an unpublished category,
by alice. -/
def pC10 : Post := ⟨13, alice, 1000, false, some hiddenCat, "p"⟩

/-- Fixture store holding only pC10. -/
def dbC10 : DB := ⟨[pC10], [], 1⟩

/-! Helper lemmas shared by several claim theorems. -/

/-- A post row found by primary key has that primary key. -/
theorem findPost_id {db : DB} {postId : Nat} {p : Post}
    (h : db.findPost postId = some p) : p.id = postId := by
  unfold DB.findPost at h
  simpa using List.find?_some h

/-- Comment submission by an authenticated user, with an existing parent
post and a valid body: the new row is appended and the response redirects
to the parent post's detail view. -/
theorem commentCreateRequest_found (db : DB) (u : User) (postId : Nat)
    (text : String) (p : Post) (hp : db.findPost postId = some p)
    (hv : validBody text = true) :
    commentCreateRequest db (some u) postId text =
      (.redirectPostDetail postId,
       { db with
          comments := db.comments ++ [⟨db.nextCommentId, u, postId, text⟩],
          nextCommentId := db.nextCommentId + 1 }) := by
  have hid := findPost_id hp
  simp [commentCreateRequest, hp, hv, hid]

/-- C1, counterexample: for the post dbC1 stores (published, past-dated,
no category) the restrictive predicate fails, yet an anonymous viewer's
detail request ends in a server error (AttributeError on
None.is_published), not the not-found condition the claim requires. -/
theorem C1_counterexample :
    postDetailDispatch 0 none dbC1 1 = .serverError ∧
    postDetailDispatch 0 none dbC1 1 ≠ .notFound := by
  decide

/-- C1 (amended): for a post whose category is present, a viewer other
than the author gets not-found whenever the restrictive predicate
(is_published and pub_date at most now and category published) fails, the
author always gets a successful render, and the outcome is never the
authorization-denied condition.  (Posts without a category instead crash
the view when published and past-dated; see the counterexample.) -/
theorem C1_detail_visibility (db : DB) (now : Int) (user : Option User)
    (postId : Nat) (p : Post) (c : Category)
    (hp : db.findPost postId = some p) (hc : p.category = some c) :
    (userPk user ≠ some p.author.pk →
      ¬ (p.is_published = true ∧ p.pub_date ≤ now ∧ c.is_published = true) →
      postDetailDispatch now user db postId = .notFound) ∧
    (userPk user = some p.author.pk →
      postDetailDispatch now user db postId = .ok) ∧
    postDetailDispatch now user db postId ≠ .forbidden := by
  have hd : postDetailDispatch now user db postId =
      if !p.is_published || decide (p.pub_date > now) then
        if userPk user ≠ some p.author.pk then .notFound else .ok
      else if !c.is_published then
        if userPk user ≠ some p.author.pk then .notFound else .ok
      else .ok := by
    simp only [postDetailDispatch, hp, hc]
  rw [hd]
  refine ⟨?_, ?_, ?_⟩
  · intro hne hnp
    by_cases h1 : (!p.is_published || decide (p.pub_date > now)) = true
    · rw [if_pos h1, if_pos hne]
    · rw [if_neg h1]
      have h1' : p.is_published = true ∧ p.pub_date ≤ now := by
        simpa [not_or, not_lt] using h1
      by_cases h2 : (!c.is_published) = true
      · rw [if_pos h2, if_pos hne]
      · exfalso
        exact hnp ⟨h1'.1, h1'.2, by simpa using h2⟩
  · intro heq
    have hne' : ¬ (userPk user ≠ some p.author.pk) := by simp [heq]
    by_cases h1 : (!p.is_published || decide (p.pub_date > now)) = true
    · rw [if_pos h1, if_neg hne']
    · rw [if_neg h1]
      by_cases h2 : (!c.is_published) = true
      · rw [if_pos h2, if_neg hne']
      · rw [if_neg h2]
  · split_ifs <;> simp

/-- C1 witness: in dbC1w the stored post is unpublished, so a stranger's
detail request 404s while the author's succeeds. -/
theorem C1_detail_visibility_witness :
    postDetailDispatch 0 none dbC1w 14 = .notFound ∧
    postDetailDispatch 0 (some alice) dbC1w 14 = .ok := by
  constructor
  · exact (C1_detail_visibility dbC1w 0 none 14 pC1w newsCat (by decide)
      (by decide)).1 (by decide) (by decide)
  · exact (C1_detail_visibility dbC1w 0 (some alice) 14 pC1w newsCat (by decide)
      (by decide)).2.1 (by decide)

/-- C2, code bug: the profile feed of alice requested by bob (not the
owner) returns alice's draft post, because the non-owner branch of
ProfileListView.get_queryset discards the filtered queryset it builds. -/
theorem C2_profile_filter_discarded :
    draftC2.is_published = false ∧
    profileListQueryset dbC2 100 (some bob) alice.username = [draftC2] := by
  decide

/-- C3, counterexample: an anonymous edit request against an existing post
is answered by the author check with a redirect to the post's detail view,
not with the login redirect the claim requires to come first. -/
theorem C3_counterexample :
    (postUpdateRequest dbC3 none 3 ("x")).1 = .redirectPostDetail 3 ∧
    (postUpdateRequest dbC3 none 3 ("x")).1 ≠ .redirectLogin := by
  decide

/-- C3 (amended): for comment edit and delete the login redirect is issued
before the author check; for post edit and delete the author check runs
first, so an anonymous requester is redirected to the post's detail view
and never reaches the login redirect. -/
theorem C3_login_redirect_order (db : DB) (postId commentId : Nat) (t : String) :
    ((commentUpdateRequest db none postId commentId t).1 = .redirectLogin ∧
     (commentDeleteRequest db none postId commentId).1 = .redirectLogin) ∧
    ∀ p, db.findPost postId = some p →
      (postUpdateRequest db none postId t).1 = .redirectPostDetail p.id ∧
      (postDeleteRequest db none postId).1 = .redirectPostDetail p.id := by
  refine ⟨⟨rfl, rfl⟩, ?_⟩
  intro p hp
  have hne : userPk none ≠ some p.author.pk := by simp [userPk]
  constructor
  · simp [postUpdateRequest, hp, hne]
  · simp [postDeleteRequest, hp, hne]

/-- C3 witness: concrete anonymous requests against dbC3. -/
theorem C3_login_redirect_order_witness :
    (commentUpdateRequest dbC3 none 3 30 ("x")).1 = .redirectLogin ∧
    (postUpdateRequest dbC3 none 3 ("x")).1 = .redirectPostDetail pC3.id := by
  refine ⟨(C3_login_redirect_order dbC3 3 30 ("x")).1.1, ?_⟩
  exact ((C3_login_redirect_order dbC3 3 30 ("x")).2 pC3 (by decide)).1

/-- C4, code bug: bob (authenticated, not the author) asks to edit or
delete comment 7 whose parent post is 5; the store is untouched but the
redirect goes to the post_detail route built from the comment's own pk 7,
not from the parent post's pk 5. -/
theorem C4_redirect_uses_comment_pk :
    cC4.post = 5 ∧
    commentUpdateRequest dbC4 (some bob) 5 7 ("x") = (.redirectPostDetail 7, dbC4) ∧
    commentDeleteRequest dbC4 (some bob) 5 7 = (.redirectPostDetail 7, dbC4) ∧
    Response.redirectPostDetail 7 ≠ Response.redirectPostDetail 5 := by
  decide

/-- C5: an authenticated user who is not the author of an existing post
and an existing comment can change neither by edit or delete requests: the
store is returned unchanged and every response is a redirect to a detail
route, never an error. -/
theorem C5_nonauthor_noop (db : DB) (u : User) (postId commentId : Nat)
    (t : String) (p : Post) (c : Comment)
    (hp : db.findPost postId = some p) (hpa : u.pk ≠ p.author.pk)
    (hc : db.findComment commentId = some c) (hca : u.pk ≠ c.author.pk) :
    postUpdateRequest db (some u) postId t = (.redirectPostDetail p.id, db) ∧
    postDeleteRequest db (some u) postId = (.redirectPostDetail p.id, db) ∧
    commentUpdateRequest db (some u) postId commentId t = (.redirectPostDetail c.id, db) ∧
    commentDeleteRequest db (some u) postId commentId = (.redirectPostDetail c.id, db) := by
  have hca' : c.author.pk ≠ u.pk := hca.symm
  refine ⟨?_, ?_, ?_, ?_⟩
  · simp [postUpdateRequest, hp, userPk, hpa]
  · simp [postDeleteRequest, hp, userPk, hpa]
  · simp [commentUpdateRequest, hc, hca']
  · simp [commentDeleteRequest, hc, hca']

/-- C5 witness: bob's edit of alice's post 6 and delete of alice's comment
9 both leave dbC5 unchanged and redirect. -/
theorem C5_nonauthor_noop_witness :
    postUpdateRequest dbC5 (some bob) 6 ("x") = (.redirectPostDetail 6, dbC5) ∧
    commentDeleteRequest dbC5 (some bob) 6 9 = (.redirectPostDetail 9, dbC5) := by
  have h := C5_nonauthor_noop dbC5 bob 6 9 ("x") pC5 cC5 (by decide) (by decide)
    (by decide) (by decide)
  exact ⟨h.1, h.2.2.2⟩

/-- C6, code bug: the post in dbC6 is published, past-dated and has no
category, so the claim requires its detail view to succeed for every
viewer; instead the condition in PostDetailView.dispatch evaluates
None.is_published and raises AttributeError for an anonymous viewer and
even for the author. -/
theorem C6_category_none_crash :
    pC6.is_published = true ∧ pC6.pub_date ≤ (5 : Int) ∧ pC6.category = none ∧
    postDetailDispatch 5 none dbC6 4 = .serverError ∧
    postDetailDispatch 5 (some alice) dbC6 4 = .serverError := by
  decide

/-- C7, counterexample: the post in dbC7 is published with a published
category and its pub_date equals the current time 100, yet it is missing
from the home feed because the filter uses the strict bound
pub_date__lt=now. -/
theorem C7_boundary_excluded :
    pC7 ∈ dbC7.posts ∧ pC7.is_published = true ∧
    pC7.pub_date = (100 : Int) ∧ categoryPublishedJoin pC7 = true ∧
    pC7 ∉ postListViewQueryset dbC7 100 := by
  decide

/-- C7 (amended): the home and category feeds apply the strict time bound
pub_date < now (a post whose pub_date equals now is excluded) together
with is_published and a published category; the non-owner profile feed
applies no published, time or category condition at all, only the author
filter, because its filter call is discarded. -/
theorem C7_time_bound (db : DB) (now : Int) (slug : String)
    (requester : Option User) (username : String) (p : Post) :
    (p ∈ postListViewQueryset db now ↔
      p ∈ db.posts ∧ p.is_published = true ∧ p.pub_date < now ∧
        categoryPublishedJoin p = true) ∧
    (p ∈ categoryListQueryset db now slug ↔
      p ∈ postListViewQueryset db now ∧ categorySlugIs p slug = true) ∧
    profileListQueryset db now requester username =
      (postListMixinQueryset db).filter (fun q => q.author.username == username) := by
  refine ⟨?_, ?_, ?_⟩
  · simp only [postListViewQueryset, postListMixinQueryset, List.mem_filter,
      List.mem_insertionSort, publicFilter, Bool.and_eq_true, decide_eq_true_eq]
    tauto
  · simp [categoryListQueryset, List.mem_filter]
  · simp [profileListQueryset]

/-- C7 witness: one past-dated concrete post is listed at now = 101. -/
theorem C7_time_bound_witness :
    pC7 ∈ postListViewQueryset dbC7 101 :=
  (C7_time_bound dbC7 101 ("news") none ("") pC7).1.mpr (by decide)

/-- C8: every page of the home feed is sorted by pub_date descending,
holds at most 10 posts, and annotates each post with its comment count. -/
theorem C8_home_feed_shape (db : DB) (now : Int) (page : Nat) :
    List.Sorted pubDateGE ((homeFeedPage db now page).map Prod.fst) ∧
    (homeFeedPage db now page).length ≤ 10 ∧
    ∀ x ∈ homeFeedPage db now page, x.2 = db.commentCount x.1.id := by
  have hsorted : List.Sorted pubDateGE (postListViewQueryset db now) :=
    List.Sorted.filter (publicFilter now)
      (List.sorted_insertionSort pubDateGE db.posts)
  have hsub : List.Sublist (paginate (postListViewQueryset db now) 10 page)
      (postListViewQueryset db now) :=
    List.Sublist.trans (List.take_sublist _ _) (List.drop_sublist _ _)
  refine ⟨?_, ?_, ?_⟩
  · have hfst : (homeFeedPage db now page).map Prod.fst =
        paginate (postListViewQueryset db now) 10 page := by
      simp only [homeFeedPage, List.map_map]
      exact List.map_id _
    rw [hfst]
    exact List.Pairwise.sublist hsub hsorted
  · simp only [homeFeedPage, List.length_map, paginate]
    exact List.length_take_le _ _
  · intro x hx
    rcases List.mem_map.1 hx with ⟨q, _, rfl⟩
    rfl

/-- C8 witness: the concrete first page of dbC7's home feed at now = 101
holds at most 10 posts. -/
theorem C8_home_feed_shape_witness :
    (homeFeedPage dbC7 101 1).length ≤ 10 :=
  (C8_home_feed_shape dbC7 101 1).2.1

/-- C9: an authenticated user submitting a valid comment body for an
existing post gets exactly one new comment row, stamped with that user as
author and that post as parent, and a redirect to the post's detail
view. -/
theorem C9_comment_create_persists (db : DB) (u : User) (postId : Nat)
    (text : String) (p : Post) (hp : db.findPost postId = some p)
    (hv : validBody text = true) :
    commentCreateRequest db (some u) postId text =
      (.redirectPostDetail postId,
       { db with
          comments := db.comments ++ [⟨db.nextCommentId, u, postId, text⟩],
          nextCommentId := db.nextCommentId + 1 }) :=
  commentCreateRequest_found db u postId text p hp hv

/-- C9 witness: bob comments on post 12 of dbC9. -/
theorem C9_comment_create_persists_witness :
    commentCreateRequest dbC9 (some bob) 12 ("hi") =
      (.redirectPostDetail 12,
       { dbC9 with
          comments := dbC9.comments ++ [⟨dbC9.nextCommentId, bob, 12, "hi"⟩],
          nextCommentId := dbC9.nextCommentId + 1 }) :=
  C9_comment_create_persists dbC9 bob 12 ("hi") pC9 (by decide) (by decide)

/-- C10: comment creation by an authenticated user checks only that the
parent post exists: when any post with the given id is stored, whatever
its publication flags, the valid submission persists the comment and
redirects; the outcome is not-found exactly when no such post exists. -/
theorem C10_existence_only (db : DB) (u : User) (postId : Nat) (text : String) :
    ((∃ p, db.findPost postId = some p) → validBody text = true →
      (commentCreateRequest db (some u) postId text).1 = .redirectPostDetail postId ∧
      (commentCreateRequest db (some u) postId text).2.comments =
        db.comments ++ [⟨db.nextCommentId, u, postId, text⟩]) ∧
    ((commentCreateRequest db (some u) postId text).1 = .notFound ↔
      db.findPost postId = none) := by
  constructor
  · rintro ⟨p, hp⟩ hv
    rw [commentCreateRequest_found db u postId text p hp hv]
    exact ⟨rfl, rfl⟩
  · cases hfind : db.findPost postId with
    | none => simp [commentCreateRequest, hfind]
    | some p =>
      have h1 : (commentCreateRequest db (some u) postId text).1 ≠ .notFound := by
        by_cases hv : validBody text = true <;>
          simp [commentCreateRequest, hfind, hv]
      exact iff_of_false h1 (by simp [hfind])

/-- C10 witness: bob comments on alice's unpublished, future-dated post
with an unpublished category, and the submission still succeeds. -/
theorem C10_existence_only_witness :
    (commentCreateRequest dbC10 (some bob) 13 ("hi")).1 = .redirectPostDetail 13 :=
  ((C10_existence_only dbC10 bob 13 ("hi")).1 ⟨pC10, by decide⟩ (by decide)).1

end Blogicum
